import Mathlib

/-!
# CSDTK42: the Ruby/GNOME2 binding headers `rbatkversion.h` and `rbpango.h`

A verification development over the two headers under
`bin/lib/ruby/site_ruby/1.8/i386-msvcrt/`.

* `rbatkversion.h` is three integer constants and one comparison macro.  The
  macro is embedded as a Boolean function of three integers.  C `int` (and the
  preprocessor's `intmax_t`) comparisons agree with the comparisons of `Int`
  on every representable value and the macro performs no arithmetic, so no
  wrap-around is involved.
* `rbpango.h` is a list of conditional `#define`s and `extern` declarations.
  Its conditional structure is embedded as functions from the build
  configuration to the macros it defines and the functions it declares; the
  use of a macro is embedded as the call it expands to.
-/

namespace CSDTK42

/-! ## rbatkversion.h -/

/-- Line 13: `#define ATK_MAJOR_VERSION (1)`. -/
def ATK_MAJOR_VERSION : Int := 1

/-- Line 14: `#define ATK_MINOR_VERSION (12)`. -/
def ATK_MINOR_VERSION : Int := 12

/-- Line 15: `#define ATK_MICRO_VERSION (3)`. -/
def ATK_MICRO_VERSION : Int := 3

/-- Lines 17-21: the macro `ATK_CHECK_VERSION(major,minor,micro)`, disjunct by
disjunct.  Both C and Lean parse `p || q || r` and `p && q && r` to the left. -/
def ATK_CHECK_VERSION (major minor micro : Int) : Bool :=
  (decide (ATK_MAJOR_VERSION > major) ||
   (decide (ATK_MAJOR_VERSION = major) && decide (ATK_MINOR_VERSION > minor)) ||
   (decide (ATK_MAJOR_VERSION = major) && decide (ATK_MINOR_VERSION = minor) &&
    decide (ATK_MICRO_VERSION ≥ micro)))

/-! ### Reference notions the version check is compared with -/

/-- A version triple `(major, minor, micro)`. -/
abbrev VersionTriple := Int × Int × Int

/-- The lexicographic order on triples, taken from Mathlib: the order of
`Int ×ₗ (Int ×ₗ Int)`. -/
def lexLE (v w : VersionTriple) : Prop :=
  toLex (v.1, toLex (v.2.1, v.2.2)) ≤ toLex (w.1, toLex (w.2.1, w.2.2))

/-- The predicate `atLeast` in the words of the specification: compare major
first, then minor only when the majors are equal, then micro only when majors
and minors are equal; equality of all three satisfies it. -/
def atLeast (compiled : VersionTriple) (major minor micro : Int) : Bool :=
  if compiled.1 ≠ major then decide (major < compiled.1)
  else if compiled.2.1 ≠ minor then decide (minor < compiled.2.1)
  else decide (micro ≤ compiled.2.2)

/-- Number of decimal digits of `n`, bounded by `fuel` (one digit for `0`). -/
def decimalLength : Nat → Nat → Nat
  | 0, _ => 1
  | fuel + 1, n => if n < 10 then 1 else decimalLength fuel (n / 10) + 1

/-- Decimal concatenation of three naturals: `1`, `12`, `3` give `1123`. -/
def concatDecimal (a b c : Nat) : Nat :=
  (a * 10 ^ decimalLength b b + b) * 10 ^ decimalLength c c + c

/-- The "numeric sum" test the specification rules out. -/
def sumTest (a b c : Nat) : Bool :=
  decide (a + b + c ≤ 1 + 12 + 3)

/-- The "concatenation" test the specification rules out. -/
def concatTest (a b c : Nat) : Bool :=
  decide (concatDecimal a b c ≤ concatDecimal 1 12 3)

/-! ### The macro as a C expression

To speak about error branches and purity, the macro body is also given as a
term of a small C expression language whose evaluator can fail (division by
zero, out-of-bounds indexing) and can depend on memory (indexing). -/

/-- Integer C expressions: literals, the comparison and logical operators the
macro is written with, and the two operators of C that can fail. -/
inductive CExpr where
  | lit (n : Int)
  | gt (l r : CExpr)
  | ge (l r : CExpr)
  | eq (l r : CExpr)
  | lor (l r : CExpr)
  | land (l r : CExpr)
  | div (l r : CExpr)
  | index (i : CExpr)
  deriving Repr

/-- Evaluation of a C expression against an integer array `mem`.  Comparisons
and logical operators yield `1` or `0`; `||` and `&&` evaluate their right
operand only when the left one does not decide; `none` is an error. -/
def CExpr.eval (mem : List Int) : CExpr → Option Int
  | .lit n => some n
  | .gt l r =>
    match l.eval mem, r.eval mem with
    | some a, some b => some (if a > b then 1 else 0)
    | _, _ => none
  | .ge l r =>
    match l.eval mem, r.eval mem with
    | some a, some b => some (if a ≥ b then 1 else 0)
    | _, _ => none
  | .eq l r =>
    match l.eval mem, r.eval mem with
    | some a, some b => some (if a = b then 1 else 0)
    | _, _ => none
  | .lor l r =>
    match l.eval mem with
    | none => none
    | some a =>
      if a ≠ 0 then some 1
      else match r.eval mem with
        | none => none
        | some b => some (if b ≠ 0 then 1 else 0)
  | .land l r =>
    match l.eval mem with
    | none => none
    | some a =>
      if a = 0 then some 0
      else match r.eval mem with
        | none => none
        | some b => some (if b ≠ 0 then 1 else 0)
  | .div l r =>
    match l.eval mem, r.eval mem with
    | some a, some b => if b = 0 then none else some (Int.tdiv a b)
    | _, _ => none
  | .index i =>
    match i.eval mem with
    | some k => if 0 ≤ k then mem.get? k.toNat else none
    | none => none

/-- Whether an expression is built from literals, comparisons and logical
operators only (no division, no indexing). -/
def CExpr.comparisonsOnly : CExpr → Bool
  | .lit _ => true
  | .gt l r => l.comparisonsOnly && r.comparisonsOnly
  | .ge l r => l.comparisonsOnly && r.comparisonsOnly
  | .eq l r => l.comparisonsOnly && r.comparisonsOnly
  | .lor l r => l.comparisonsOnly && r.comparisonsOnly
  | .land l r => l.comparisonsOnly && r.comparisonsOnly
  | .div _ _ => false
  | .index _ => false

/-- Lines 17-21 again, as an expression tree: the body of
`ATK_CHECK_VERSION(major,minor,micro)` after macro expansion. -/
def ATK_CHECK_VERSION_expr (major minor micro : Int) : CExpr :=
  .lor
    (.lor
      (.gt (.lit ATK_MAJOR_VERSION) (.lit major))
      (.land (.eq (.lit ATK_MAJOR_VERSION) (.lit major))
             (.gt (.lit ATK_MINOR_VERSION) (.lit minor))))
    (.land
      (.land (.eq (.lit ATK_MAJOR_VERSION) (.lit major))
             (.eq (.lit ATK_MINOR_VERSION) (.lit minor)))
      (.ge (.lit ATK_MICRO_VERSION) (.lit micro)))

/-- The C integer value of a Boolean. -/
def boolToInt (b : Bool) : Int := if b then 1 else 0

/-! ## rbpango.h -/

/-- The type-identifier macros of lines 44-63. -/
inductive TypeIdent where
  | PANGO_TYPE_ITEM
  | PANGO_TYPE_ANALYSIS
  | PANGO_TYPE_LOG_ATTR
  | PANGO_TYPE_LAYOUT_ITER
  | PANGO_TYPE_LAYOUT_LINE
  | PANGO_TYPE_RECTANGLE
  | PANGO_TYPE_ATTR_ITERATOR
  | PANGO_TYPE_COVERAGE
  | PANGO_TYPE_GLYPH_INFO
  | PANGO_TYPE_GLYPH_ITEM
  | PANGO_TYPE_SCRIPT_ITER
  deriving DecidableEq, Repr

/-- The resolver functions of lines 73-86, each `extern GType f();`. -/
inductive Resolver where
  | pango_item_get_type
  | pango_analysis_get_type
  | pango_log_attr_get_type
  | pango_layout_iter_get_type
  | pango_layout_line_get_type
  | pango_rectangle_get_type
  | pango_attr_iter_get_type
  | pango_coverage_get_type
  | pango_glyph_info_get_type
  | pango_glyph_item_get_type
  | pango_script_iter_get_type
  deriving DecidableEq, Repr

/-- What the preprocessor knows when it reaches line 24 of `rbpango.h`: the
version constants of `rbpangoversion.h` and the type macros that
`<pango/pango.h>` has already defined (tested by the `#ifndef`s). -/
structure Config where
  PANGO_MAJOR_VERSION : Int
  PANGO_MINOR_VERSION : Int
  PANGO_MICRO_VERSION : Int
  predefined : List TypeIdent

/-- Modelled from the spec: `rbpangoversion.h`, which defines
`PANGO_CHECK_VERSION`, is not among the sources.  It is the specification's
`atLeast` over the compiled-in Pango version. -/
def PANGO_CHECK_VERSION (cfg : Config) (major minor micro : Int) : Bool :=
  atLeast (cfg.PANGO_MAJOR_VERSION, cfg.PANGO_MINOR_VERSION, cfg.PANGO_MICRO_VERSION)
    major minor micro

/-- Lines 44-63: the type macros the header defines, in order, each with the
resolver its body `(f())` calls.  `#ifndef M` keeps a definition only when `M`
is not yet defined; `#if PANGO_CHECK_VERSION(1,4,0)` keeps line 62 only when
the gate holds. -/
def rbpango_type_defines (cfg : Config) : List (TypeIdent × Resolver) :=
  (if TypeIdent.PANGO_TYPE_ITEM ∉ cfg.predefined then
    [(.PANGO_TYPE_ITEM, .pango_item_get_type)] else []) ++
  [(.PANGO_TYPE_ANALYSIS, .pango_analysis_get_type),
   (.PANGO_TYPE_LOG_ATTR, .pango_log_attr_get_type)] ++
  (if TypeIdent.PANGO_TYPE_LAYOUT_ITER ∉ cfg.predefined then
    [(.PANGO_TYPE_LAYOUT_ITER, .pango_layout_iter_get_type)] else []) ++
  (if TypeIdent.PANGO_TYPE_LAYOUT_LINE ∉ cfg.predefined then
    [(.PANGO_TYPE_LAYOUT_LINE, .pango_layout_line_get_type)] else []) ++
  [(.PANGO_TYPE_RECTANGLE, .pango_rectangle_get_type),
   (.PANGO_TYPE_ATTR_ITERATOR, .pango_attr_iter_get_type),
   (.PANGO_TYPE_COVERAGE, .pango_coverage_get_type),
   (.PANGO_TYPE_GLYPH_INFO, .pango_glyph_info_get_type),
   (.PANGO_TYPE_GLYPH_ITEM, .pango_glyph_item_get_type)] ++
  (if PANGO_CHECK_VERSION cfg 1 4 0 then
    [(.PANGO_TYPE_SCRIPT_ITER, .pango_script_iter_get_type)] else [])

/-- Lines 73-86: the resolver functions the header declares. -/
def rbpango_gtype_externs (cfg : Config) : List Resolver :=
  [.pango_item_get_type, .pango_analysis_get_type, .pango_log_attr_get_type,
   .pango_layout_iter_get_type, .pango_layout_line_get_type, .pango_rectangle_get_type,
   .pango_attr_iter_get_type, .pango_coverage_get_type, .pango_glyph_info_get_type,
   .pango_glyph_item_get_type] ++
  (if PANGO_CHECK_VERSION cfg 1 4 0 then [.pango_script_iter_get_type] else [])

/-- The resolver a type macro expands to, when the header defines the macro. -/
def expansion (cfg : Config) (m : TypeIdent) : Option Resolver :=
  (rbpango_type_defines cfg).lookup m

/-- Whether the header defines the macro `m`. -/
def definesTypeMacro (cfg : Config) (m : TypeIdent) : Bool :=
  (expansion cfg m).isSome

/-- Whether the header declares the resolver `r`. -/
def declaresResolver (cfg : Config) (r : Resolver) : Bool :=
  decide (r ∈ rbpango_gtype_externs cfg)

/-- The resolver a type macro calls.  Lines 45-62 pair each macro with the
function of the same name, and `<pango/pango.h>` writes the macros it defines
itself in the same way, as in `#define PANGO_TYPE_ITEM (pango_item_get_type ())`. -/
def typeResolver : TypeIdent → Resolver
  | .PANGO_TYPE_ITEM => .pango_item_get_type
  | .PANGO_TYPE_ANALYSIS => .pango_analysis_get_type
  | .PANGO_TYPE_LOG_ATTR => .pango_log_attr_get_type
  | .PANGO_TYPE_LAYOUT_ITER => .pango_layout_iter_get_type
  | .PANGO_TYPE_LAYOUT_LINE => .pango_layout_line_get_type
  | .PANGO_TYPE_RECTANGLE => .pango_rectangle_get_type
  | .PANGO_TYPE_ATTR_ITERATOR => .pango_attr_iter_get_type
  | .PANGO_TYPE_COVERAGE => .pango_coverage_get_type
  | .PANGO_TYPE_GLYPH_INFO => .pango_glyph_info_get_type
  | .PANGO_TYPE_GLYPH_ITEM => .pango_glyph_item_get_type
  | .PANGO_TYPE_SCRIPT_ITER => .pango_script_iter_get_type

/-- The definition of the type macro `m` that is in effect once the header has
been read, given as the resolver its body calls: the header's own definition
when it makes one; otherwise the definition `<pango/pango.h>` made before, the
case an `#ifndef` of lines 44, 49 and 52 leaves alone; `none` when `m` is
defined nowhere. -/
def typeMacroInEffect (cfg : Config) (m : TypeIdent) : Option Resolver :=
  match expansion cfg m with
  | some r => some r
  | none => if m ∈ cfg.predefined then some (typeResolver m) else none

/-! ### Using a type macro -/

/-- A `GType`, glib's numeric type identifier. -/
abbrev GType := Nat

/-- An `extern GType f();`: a function of no arguments whose body is not in the
header.  It may read and update process memory `σ`. -/
abbrev ResolverFn (σ : Type) := σ → GType × σ

/-- A running process: its memory, and how many times each resolver has been
entered so far. -/
structure Process (σ : Type) where
  mem : σ
  invocations : Resolver → Nat

/-- A call `r()`. -/
def callResolver {σ : Type} (impl : Resolver → ResolverFn σ) (r : Resolver)
    (p : Process σ) : GType × Process σ :=
  ((impl r p.mem).1,
   { mem := (impl r p.mem).2,
     invocations := fun x => if x = r then p.invocations x + 1 else p.invocations x })

/-- One use of the type macro `m`: the preprocessor replaces it with the body
of the definition in effect, `(f())`, which is a call of `f`.  `none` only when
`m` is defined nowhere, where a use does not compile. -/
def useTypeMacro {σ : Type} (cfg : Config) (impl : Resolver → ResolverFn σ) (m : TypeIdent)
    (p : Process σ) : Option (GType × Process σ) :=
  match typeMacroInEffect cfg m with
  | none => none
  | some r => some (callResolver impl r p)

/-- `n` uses of the type macro `m`, one after the other; the identifiers
obtained, in order, and the final process. -/
def useTypeMacroN {σ : Type} (cfg : Config) (impl : Resolver → ResolverFn σ) (m : TypeIdent) :
    Nat → Process σ → Option (List GType × Process σ)
  | 0, p => some ([], p)
  | n + 1, p =>
    match useTypeMacro cfg impl m p with
    | none => none
    | some out =>
      match useTypeMacroN cfg impl m n out.2 with
      | none => none
      | some rest => some (out.1 :: rest.1, rest.2)

/-- Modelled from the spec: the bodies of the `pango_*_get_type` functions are
not among the sources.  A resolver in the manner of the specification's
`TypeBinding`: a cached identifier per resolver, empty until the first call;
the first call queries the native library (`native r`) and stores the answer,
later calls return the stored value. -/
def cachingResolver (native : Resolver → GType) (r : Resolver) :
    ResolverFn (Resolver → Option GType) :=
  fun cache =>
    match cache r with
    | some t => (t, cache)
    | none => (native r, fun x => if x = r then some (native r) else cache x)

/-- Identifiers handed out by the native library in the examples. -/
def exampleNative : Resolver → GType
  | .pango_item_get_type => 100
  | .pango_analysis_get_type => 101
  | .pango_log_attr_get_type => 102
  | .pango_layout_iter_get_type => 103
  | .pango_layout_line_get_type => 104
  | .pango_rectangle_get_type => 105
  | .pango_attr_iter_get_type => 106
  | .pango_coverage_get_type => 107
  | .pango_glyph_info_get_type => 108
  | .pango_glyph_item_get_type => 109
  | .pango_script_iter_get_type => 110

/-- A build against Pango 1.10.0 whose `<pango/pango.h>` defines none of the
type macros. -/
def exampleConfig : Config :=
  { PANGO_MAJOR_VERSION := 1, PANGO_MINOR_VERSION := 10, PANGO_MICRO_VERSION := 0,
    predefined := [] }

/-- A build against Pango 1.10.0 whose `<pango/pango.h>` already defines the
three macros the header tests with `#ifndef`. -/
def examplePredefinedConfig : Config :=
  { PANGO_MAJOR_VERSION := 1, PANGO_MINOR_VERSION := 10, PANGO_MICRO_VERSION := 0,
    predefined := [.PANGO_TYPE_ITEM, .PANGO_TYPE_LAYOUT_ITER, .PANGO_TYPE_LAYOUT_LINE] }

/-- A fresh process: empty caches, no resolver entered yet. -/
def freshProcess : Process (Resolver → Option GType) :=
  { mem := fun _ => none, invocations := fun _ => 0 }

/-! ### Attribute wrapping -/

/-- A native attribute, as the header sees it: a `PangoAttribute*`. -/
structure PangoAttribute where
  addr : Nat
  deriving DecidableEq, Repr

/-- The bindings a host handle can be tagged with. -/
inductive Binding where
  | attribute
  | boxed (m : TypeIdent)
  deriving DecidableEq, Repr

/-- A host value (`VALUE`): a type tag and a payload pointer. -/
structure VALUE where
  tag : Binding
  payload : Nat
  deriving DecidableEq, Repr

/-- The recoverable error of the specification. -/
inductive BridgeError where
  | TypeMismatchError
  deriving DecidableEq, Repr

/-- Modelled from the spec: `wrap(nativeValue, binding)`, a handle carrying the
type tag and the payload pointer. -/
def wrap (nativeValue : Nat) (binding : Binding) : VALUE :=
  { tag := binding, payload := nativeValue }

/-- Modelled from the spec: `unwrap(hostHandle, binding)`, the inverse of
`wrap`; fails with `TypeMismatchError` when the tag is not the binding. -/
def unwrap (hostHandle : VALUE) (binding : Binding) : Except BridgeError Nat :=
  if hostHandle.tag = binding then .ok hostHandle.payload else .error .TypeMismatchError

/-- Modelled from the spec: the body of `pango_make_attribute` (declared on
line 70) is not among the sources; it is `wrap` at the attribute binding. -/
def pango_make_attribute (attr : PangoAttribute) : VALUE :=
  wrap attr.addr .attribute

/-- Modelled from the spec: the body of `pango_get_attribute` (declared on
line 71) is not among the sources; it is `unwrap` at the attribute binding. -/
def pango_get_attribute (attr : VALUE) : Except BridgeError PangoAttribute :=
  match unwrap attr .attribute with
  | .ok a => .ok { addr := a }
  | .error e => .error e

/-- Line 65: `#define ATTR2RVAL(attr) (pango_make_attribute(attr))`. -/
def ATTR2RVAL (attr : PangoAttribute) : VALUE :=
  pango_make_attribute attr

/-- Line 66: `#define RVAL2ATTR(attr) (pango_get_attribute(attr))`. -/
def RVAL2ATTR (attr : VALUE) : Except BridgeError PangoAttribute :=
  pango_get_attribute attr

/-! ## Theorems -/

/-- Unfolding of the macro into a proposition. -/
theorem ATK_CHECK_VERSION_eq_true_iff (major minor micro : Int) :
    ATK_CHECK_VERSION major minor micro = true ↔
      (major < 1 ∨ (major = 1 ∧ minor < 12) ∨ (major = 1 ∧ minor = 12 ∧ micro ≤ 3)) := by
  simp only [ATK_CHECK_VERSION, ATK_MAJOR_VERSION, ATK_MINOR_VERSION, ATK_MICRO_VERSION,
    Bool.or_eq_true, Bool.and_eq_true, decide_eq_true_eq, gt_iff_lt, ge_iff_le]
  constructor
  · rintro ((h | ⟨h1, h2⟩) | ⟨⟨h1, h2⟩, h3⟩)
    · exact Or.inl h
    · exact Or.inr (Or.inl ⟨h1.symm, h2⟩)
    · exact Or.inr (Or.inr ⟨h1.symm, h2.symm, h3⟩)
  · rintro (h | ⟨h1, h2⟩ | ⟨h1, h2, h3⟩)
    · exact Or.inl (Or.inl h)
    · exact Or.inl (Or.inr ⟨h1.symm, h2⟩)
    · exact Or.inr ⟨⟨h1.symm, h2.symm⟩, h3⟩

/-- The Mathlib lexicographic order on triples, spelled out. -/
theorem lexLE_iff (v w : VersionTriple) :
    lexLE v w ↔
      (v.1 < w.1 ∨ (v.1 = w.1 ∧ v.2.1 < w.2.1) ∨
        (v.1 = w.1 ∧ v.2.1 = w.2.1 ∧ v.2.2 ≤ w.2.2)) := by
  simp only [lexLE, Prod.Lex.le_iff, Prod.Lex.lt_iff, ofLex_toLex]
  constructor
  · rintro (h | ⟨h1, h2 | ⟨h2, h3⟩⟩)
    · exact Or.inl h
    · exact Or.inr (Or.inl ⟨h1, h2⟩)
    · exact Or.inr (Or.inr ⟨h1, h2, h3⟩)
  · rintro (h | ⟨h1, h2⟩ | ⟨h1, h2, h3⟩)
    · exact Or.inl h
    · exact Or.inr ⟨h1, Or.inl h2⟩
    · exact Or.inr ⟨h1, Or.inr ⟨h2, h3⟩⟩

/-- Under the word-for-word reading of the specification the same predicate. -/
theorem atLeast_eq_true_iff (V : VersionTriple) (major minor micro : Int) :
    atLeast V major minor micro = true ↔ lexLE (major, minor, micro) V := by
  rw [lexLE_iff]
  obtain ⟨x, y, z⟩ := V
  simp only [atLeast]
  split_ifs with h1 h2
  · simp only [decide_eq_true_eq]
    omega
  · simp only [ne_eq, not_not] at h1
    simp only [decide_eq_true_eq]
    omega
  · simp only [ne_eq, not_not] at h1 h2
    simp only [decide_eq_true_eq]
    omega

/-- C1: for every integer triple, `ATK_CHECK_VERSION(major, minor, micro)` is
true exactly when the compiled-in triple, which is `(1, 12, 3)`, is
lexicographically greater than or equal to `(major, minor, micro)`: in
Mathlib's lexicographic order, and in the specification's own wording (major
first, minor only on equal majors, micro only on equal majors and minors). -/
theorem ATK_CHECK_VERSION_iff_lex (major minor micro : Int) :
    (ATK_MAJOR_VERSION, ATK_MINOR_VERSION, ATK_MICRO_VERSION) = ((1, 12, 3) : VersionTriple) ∧
    (ATK_CHECK_VERSION major minor micro = true ↔
      lexLE (major, minor, micro) (ATK_MAJOR_VERSION, ATK_MINOR_VERSION, ATK_MICRO_VERSION)) ∧
    ATK_CHECK_VERSION major minor micro =
      atLeast (ATK_MAJOR_VERSION, ATK_MINOR_VERSION, ATK_MICRO_VERSION) major minor micro := by
  have hlex : ATK_CHECK_VERSION major minor micro = true ↔
      lexLE (major, minor, micro) (ATK_MAJOR_VERSION, ATK_MINOR_VERSION, ATK_MICRO_VERSION) := by
    rw [ATK_CHECK_VERSION_eq_true_iff, lexLE_iff]
    simp only [ATK_MAJOR_VERSION, ATK_MINOR_VERSION, ATK_MICRO_VERSION]
  refine ⟨rfl, hlex, ?_⟩
  rw [Bool.eq_iff_iff, hlex, atLeast_eq_true_iff]

/-- C2 as stated fails: `(0, 13, 0)` is a triple of non-negative integers with
`b > 12`, yet the check holds for it, because the compiled major `1` already
exceeds `0`. -/
theorem ATK_CHECK_VERSION_leading_component_counterexample :
    ((0 : Int) ≤ 0 ∧ (0 : Int) ≤ 13 ∧ (0 : Int) ≤ 0) ∧ ((0 : Int) > 1 ∨ (13 : Int) > 12) ∧
      ATK_CHECK_VERSION 0 13 0 = true := by
  decide

/-- C2, amended: for every triple `(a, b, c)` of non-negative integers that
exceeds the compiled triple in its first differing leading component, that is
`a > 1`, or `a = 1` and `b > 12`, the check is false. -/
theorem ATK_CHECK_VERSION_false_of_leading_greater (a b c : Int)
    (_ha : 0 ≤ a) (_hb : 0 ≤ b) (_hc : 0 ≤ c) (h : a > 1 ∨ (a = 1 ∧ b > 12)) :
    ATK_CHECK_VERSION a b c = false := by
  rw [← Bool.not_eq_true, ATK_CHECK_VERSION_eq_true_iff]
  omega

/-- Witness for the amended C2 at `(1, 13, 0)`. -/
theorem ATK_CHECK_VERSION_false_of_leading_greater_witness :
    ((1 : Int) > 1 ∨ ((1 : Int) = 1 ∧ (13 : Int) > 12)) ∧ ATK_CHECK_VERSION 1 13 0 = false :=
  ⟨by decide,
   ATK_CHECK_VERSION_false_of_leading_greater 1 13 0 (by decide) (by decide) (by decide)
     (by decide)⟩

/-- C3: the check holds at the compiled triple `(1, 12, 3)` itself, and
`ATK_CHECK_VERSION(1, 12, c)` holds exactly when `c ≤ 3`. -/
theorem ATK_CHECK_VERSION_equality_counts :
    ATK_CHECK_VERSION ATK_MAJOR_VERSION ATK_MINOR_VERSION ATK_MICRO_VERSION = true ∧
    ATK_CHECK_VERSION 1 12 3 = true ∧
    ∀ c : Int, ATK_CHECK_VERSION 1 12 c = true ↔ c ≤ 3 := by
  refine ⟨by decide, by decide, ?_⟩
  intro c
  rw [ATK_CHECK_VERSION_eq_true_iff]
  omega

/-- C4: the five example inputs of the specification. -/
theorem ATK_CHECK_VERSION_examples :
    ATK_CHECK_VERSION 1 12 3 = true ∧ ATK_CHECK_VERSION 1 12 4 = false ∧
    ATK_CHECK_VERSION 1 13 0 = false ∧ ATK_CHECK_VERSION 0 9 9 = true ∧
    ATK_CHECK_VERSION 2 0 0 = false := by
  decide

/-- C6: the check follows version precedence and is neither the sum test nor
the concatenation test.  On every triple it is the lexicographic comparison
with `(1, 12, 3)` (major first, minor on equal majors, micro on equal majors
and minors); it differs from the sum test in both directions, at `(0, 99, 0)`
(check true, `99 ≤ 16` false) and at `(2, 0, 0)` (check false, `2 ≤ 16` true);
and it differs from the comparison of decimal concatenations in both
directions, at `(1, 2, 34)` (check true, `1234 ≤ 1123` false) and at
`(2, 0, 0)` (check false, `200 ≤ 1123` true). -/
theorem ATK_CHECK_VERSION_not_sum_not_concat :
    (∀ major minor micro : Int,
      (ATK_CHECK_VERSION major minor micro = true ↔
        lexLE (major, minor, micro) (ATK_MAJOR_VERSION, ATK_MINOR_VERSION, ATK_MICRO_VERSION)) ∧
      ATK_CHECK_VERSION major minor micro =
        atLeast (ATK_MAJOR_VERSION, ATK_MINOR_VERSION, ATK_MICRO_VERSION) major minor micro) ∧
    (∃ a b c : Nat, ATK_CHECK_VERSION a b c = true ∧ sumTest a b c = false) ∧
    (∃ a b c : Nat, ATK_CHECK_VERSION a b c = false ∧ sumTest a b c = true) ∧
    concatDecimal 1 12 3 = 1123 ∧
    (∃ a b c : Nat, ATK_CHECK_VERSION a b c = true ∧ concatTest a b c = false) ∧
    (∃ a b c : Nat, ATK_CHECK_VERSION a b c = false ∧ concatTest a b c = true) := by
  refine ⟨?_, ⟨0, 99, 0, by decide⟩, ⟨2, 0, 0, by decide⟩, by decide,
    ⟨1, 2, 34, by decide⟩, ⟨2, 0, 0, by decide⟩⟩
  intro major minor micro
  have hlex : ATK_CHECK_VERSION major minor micro = true ↔
      lexLE (major, minor, micro) (ATK_MAJOR_VERSION, ATK_MINOR_VERSION, ATK_MICRO_VERSION) := by
    rw [ATK_CHECK_VERSION_eq_true_iff, lexLE_iff]
    simp only [ATK_MAJOR_VERSION, ATK_MINOR_VERSION, ATK_MICRO_VERSION]
  refine ⟨hlex, ?_⟩
  rw [Bool.eq_iff_iff, hlex, atLeast_eq_true_iff]

/-- Evaluation of the macro body: never an error, and the C value of the
Boolean embedding, whatever the memory. -/
theorem ATK_CHECK_VERSION_expr_eval (mem : List Int) (major minor micro : Int) :
    (ATK_CHECK_VERSION_expr major minor micro).eval mem =
      some (boolToInt (ATK_CHECK_VERSION major minor micro)) := by
  simp only [ATK_CHECK_VERSION_expr, CExpr.eval, ATK_CHECK_VERSION, boolToInt]
  by_cases h1 : ATK_MAJOR_VERSION > major <;> by_cases h2 : ATK_MAJOR_VERSION = major <;>
    by_cases h3 : ATK_MINOR_VERSION > minor <;> by_cases h4 : ATK_MINOR_VERSION = minor <;>
    by_cases h5 : ATK_MICRO_VERSION ≥ micro <;> simp [h1, h2, h3, h4, h5]

/-- C7: the check is total and pure.  For every integer triple (zero and
negative values included) the macro body evaluates without error to the C
truth value `1` or `0` of the check; it is built from comparisons and logical
operators only; and two evaluations of the same triple, even from different
memories, give the same result. -/
theorem ATK_CHECK_VERSION_total_pure (major minor micro : Int) (mem mem2 : List Int) :
    (∃ b : Bool, b = ATK_CHECK_VERSION major minor micro ∧
      (ATK_CHECK_VERSION_expr major minor micro).eval mem = some (boolToInt b)) ∧
    (ATK_CHECK_VERSION_expr major minor micro).comparisonsOnly = true ∧
    (ATK_CHECK_VERSION_expr major minor micro).eval mem2 =
      (ATK_CHECK_VERSION_expr major minor micro).eval mem := by
  refine ⟨⟨_, rfl, ATK_CHECK_VERSION_expr_eval mem major minor micro⟩, rfl, ?_⟩
  rw [ATK_CHECK_VERSION_expr_eval, ATK_CHECK_VERSION_expr_eval]

/-- C10: the accepted versions are downward closed.  For integer triples `v`
and `w` with `w` lexicographically at most `v`: if the check holds for `v` it
holds for `w`, and, equivalently, if it fails for `w` it fails for `v`. -/
theorem ATK_CHECK_VERSION_downward_closed (v w : VersionTriple) (hle : lexLE w v) :
    (ATK_CHECK_VERSION v.1 v.2.1 v.2.2 = true → ATK_CHECK_VERSION w.1 w.2.1 w.2.2 = true) ∧
    (ATK_CHECK_VERSION w.1 w.2.1 w.2.2 = false → ATK_CHECK_VERSION v.1 v.2.1 v.2.2 = false) := by
  have key : ATK_CHECK_VERSION v.1 v.2.1 v.2.2 = true →
      ATK_CHECK_VERSION w.1 w.2.1 w.2.2 = true := by
    rw [lexLE_iff] at hle
    rw [ATK_CHECK_VERSION_eq_true_iff, ATK_CHECK_VERSION_eq_true_iff]
    omega
  refine ⟨key, ?_⟩
  intro hw
  rw [← Bool.not_eq_true] at hw ⊢
  exact fun hv => hw (key hv)

/-- Witness for C10 at `v = (1, 12, 3)` and `w = (0, 99, 7)`. -/
theorem ATK_CHECK_VERSION_downward_closed_witness :
    lexLE (0, 99, 7) (1, 12, 3) ∧
    (ATK_CHECK_VERSION 1 12 3 = true → ATK_CHECK_VERSION 0 99 7 = true) ∧
    (ATK_CHECK_VERSION 0 99 7 = false → ATK_CHECK_VERSION 1 12 3 = false) :=
  ⟨(lexLE_iff _ _).2 (by decide),
   ATK_CHECK_VERSION_downward_closed (1, 12, 3) (0, 99, 7) ((lexLE_iff _ _).2 (by decide))⟩

/-! ### rbpango.h -/

/-- The two places guarded by `#if PANGO_CHECK_VERSION(1,4,0)`, evaluated. -/
theorem expansion_SCRIPT_ITER (cfg : Config) :
    expansion cfg .PANGO_TYPE_SCRIPT_ITER =
      if PANGO_CHECK_VERSION cfg 1 4 0 then some .pango_script_iter_get_type else none := by
  unfold expansion rbpango_type_defines
  by_cases h1 : TypeIdent.PANGO_TYPE_ITEM ∈ cfg.predefined <;>
    by_cases h2 : TypeIdent.PANGO_TYPE_LAYOUT_ITER ∈ cfg.predefined <;>
    by_cases h3 : TypeIdent.PANGO_TYPE_LAYOUT_LINE ∈ cfg.predefined <;>
    by_cases h4 : PANGO_CHECK_VERSION cfg 1 4 0 = true <;>
    simp only [h1, h2, h3, h4, not_true_eq_false, not_false_eq_true, if_true, if_false,
      Bool.false_eq_true] <;>
    rfl

/-- The resolver `pango_script_iter_get_type` is declared exactly under the gate. -/
theorem declaresResolver_script_iter (cfg : Config) :
    declaresResolver cfg .pango_script_iter_get_type = PANGO_CHECK_VERSION cfg 1 4 0 := by
  unfold declaresResolver rbpango_gtype_externs
  by_cases h4 : PANGO_CHECK_VERSION cfg 1 4 0 = true <;> simp [h4]

/-- C5: for every build configuration (every library version), the header
defines `PANGO_TYPE_SCRIPT_ITER` exactly when it declares
`pango_script_iter_get_type`, and each of the two happens exactly when
`PANGO_CHECK_VERSION(1,4,0)` holds; whenever the macro is defined, the resolver
it expands to is `pango_script_iter_get_type` and is declared. -/
theorem PANGO_TYPE_SCRIPT_ITER_gated (cfg : Config) :
    (definesTypeMacro cfg .PANGO_TYPE_SCRIPT_ITER = true ↔
      declaresResolver cfg .pango_script_iter_get_type = true) ∧
    (definesTypeMacro cfg .PANGO_TYPE_SCRIPT_ITER = true ↔
      PANGO_CHECK_VERSION cfg 1 4 0 = true) ∧
    (declaresResolver cfg .pango_script_iter_get_type = true ↔
      PANGO_CHECK_VERSION cfg 1 4 0 = true) ∧
    (∀ r, expansion cfg .PANGO_TYPE_SCRIPT_ITER = some r →
      r = .pango_script_iter_get_type ∧ declaresResolver cfg r = true) := by
  have hd : definesTypeMacro cfg .PANGO_TYPE_SCRIPT_ITER = PANGO_CHECK_VERSION cfg 1 4 0 := by
    unfold definesTypeMacro
    rw [expansion_SCRIPT_ITER]
    by_cases h4 : PANGO_CHECK_VERSION cfg 1 4 0 = true <;> simp [h4]
  have hr := declaresResolver_script_iter cfg
  refine ⟨by rw [hd, hr], by rw [hd], by rw [hr], ?_⟩
  intro r hexp
  rw [expansion_SCRIPT_ITER] at hexp
  by_cases h4 : PANGO_CHECK_VERSION cfg 1 4 0 = true
  · rw [if_pos h4] at hexp
    have hrr : r = .pango_script_iter_get_type := (Option.some.inj hexp).symm
    subst hrr
    exact ⟨rfl, by rw [hr]; exact h4⟩
  · rw [if_neg h4] at hexp
    exact absurd hexp (by simp)

/-- A type macro is defined somewhere, and then calls the resolver of its name,
in every case but one: `PANGO_TYPE_SCRIPT_ITER` below the gate, when
`<pango/pango.h>` does not define it either. -/
theorem typeMacroInEffect_of_exposed (cfg : Config) (m : TypeIdent)
    (hexposed : m ≠ .PANGO_TYPE_SCRIPT_ITER ∨ PANGO_CHECK_VERSION cfg 1 4 0 = true ∨
      m ∈ cfg.predefined) :
    typeMacroInEffect cfg m = some (typeResolver m) := by
  unfold typeMacroInEffect expansion rbpango_type_defines
  by_cases h1 : TypeIdent.PANGO_TYPE_ITEM ∈ cfg.predefined <;>
    by_cases h2 : TypeIdent.PANGO_TYPE_LAYOUT_ITER ∈ cfg.predefined <;>
    by_cases h3 : TypeIdent.PANGO_TYPE_LAYOUT_LINE ∈ cfg.predefined <;>
    by_cases h4 : PANGO_CHECK_VERSION cfg 1 4 0 = true <;>
    by_cases h5 : TypeIdent.PANGO_TYPE_SCRIPT_ITER ∈ cfg.predefined <;>
    cases m <;>
    simp only [h1, h2, h3, h4, h5, not_true_eq_false, not_false_eq_true, if_true, if_false,
      Bool.false_eq_true, ne_eq, false_or, or_false, or_self] at hexposed ⊢ <;>
    rfl

/-- Calling again a caching resolver returns the identifier of the call before. -/
theorem cachingResolver_stable (native : Resolver → GType) (r : Resolver)
    (s : Resolver → Option GType) :
    (cachingResolver native r (cachingResolver native r s).2).1 =
      (cachingResolver native r s).1 := by
  unfold cachingResolver
  cases h : s r <;> simp [h]

/-- What `n` uses of a defined type macro do: `n` identifiers, `n` more entries
into its resolver and none into the others, and equal identifiers when the
resolver repeats itself. -/
theorem useTypeMacroN_spec {σ : Type} (cfg : Config) (impl : Resolver → ResolverFn σ)
    (m : TypeIdent) (r : Resolver) (hdef : typeMacroInEffect cfg m = some r) :
    ∀ (n : Nat) (p : Process σ), ∃ ts q,
      useTypeMacroN cfg impl m n p = some (ts, q) ∧ ts.length = n ∧
      q.invocations r = p.invocations r + n ∧
      (∀ x, x ≠ r → q.invocations x = p.invocations x) ∧
      ((∀ s, (impl r (impl r s).2).1 = (impl r s).1) → ∀ t ∈ ts, t = (impl r p.mem).1) := by
  intro n
  induction n with
  | zero =>
    intro p
    exact ⟨[], p, rfl, rfl, rfl, fun _ _ => rfl, fun _ t ht => absurd ht (List.not_mem_nil t)⟩
  | succ n ih =>
    intro p
    obtain ⟨ts, q, hrun, hlen, hcount, hother, hsame⟩ := ih (callResolver impl r p).2
    refine ⟨(callResolver impl r p).1 :: ts, q, ?_, ?_, ?_, ?_, ?_⟩
    · simp only [useTypeMacroN, useTypeMacro, hdef, hrun]
    · simp only [List.length_cons, hlen]
    · rw [hcount]
      simp only [callResolver, if_true]
      omega
    · intro x hx
      rw [hother x hx]
      simp only [callResolver, if_neg hx]
    · intro hstable t ht
      rcases List.mem_cons.1 ht with h | h
      · rw [h]
        rfl
      · rw [hsame hstable t h]
        exact hstable p.mem

/-- C8 as stated fails: with caching resolvers and a fresh process, two uses of
`PANGO_TYPE_ANALYSIS` enter `pango_analysis_get_type` twice, not at most once
(both uses yield the identifier `101`). -/
theorem PANGO_TYPE_ANALYSIS_twice_counterexample :
    ∃ q, useTypeMacroN exampleConfig (cachingResolver exampleNative) .PANGO_TYPE_ANALYSIS 2
        freshProcess = some ([101, 101], q) ∧
      q.invocations .pango_analysis_get_type = 2 ∧
      ¬ (q.invocations .pango_analysis_get_type ≤ 1) :=
  ⟨_, rfl, rfl, by decide⟩

/-- C8, amended: for every exposed type, that is every type macro `m` except
`PANGO_TYPE_SCRIPT_ITER` on a build where the gate fails and Pango does not
define it, `N` uses of `m` succeed and enter the resolver of `m` exactly `N`
times, once per use, whatever the resolver bodies are (the header keeps no
cache); and with resolver bodies that cache as the specification's
`TypeBinding` does, the `N` uses yield the identical identifier every time. -/
theorem useTypeMacroN_calls_every_time (cfg : Config) (m : TypeIdent) (N : Nat)
    (hexposed : m ≠ .PANGO_TYPE_SCRIPT_ITER ∨ PANGO_CHECK_VERSION cfg 1 4 0 = true ∨
      m ∈ cfg.predefined) :
    (∀ (σ : Type) (impl : Resolver → ResolverFn σ) (p : Process σ), ∃ ts q,
      useTypeMacroN cfg impl m N p = some (ts, q) ∧ ts.length = N ∧
      q.invocations (typeResolver m) = p.invocations (typeResolver m) + N) ∧
    (∀ (native : Resolver → GType) (p : Process (Resolver → Option GType)), ∃ ts q,
      useTypeMacroN cfg (cachingResolver native) m N p = some (ts, q) ∧ ts.length = N ∧
      (∀ t ∈ ts, t = (cachingResolver native (typeResolver m) p.mem).1) ∧
      ∀ t ∈ ts, ∀ u ∈ ts, t = u) := by
  have hdef := typeMacroInEffect_of_exposed cfg m hexposed
  constructor
  · intro σ impl p
    obtain ⟨ts, q, h1, h2, h3, -, -⟩ := useTypeMacroN_spec cfg impl m _ hdef N p
    exact ⟨ts, q, h1, h2, h3⟩
  · intro native p
    obtain ⟨ts, q, h1, h2, -, -, h5⟩ :=
      useTypeMacroN_spec cfg (cachingResolver native) m _ hdef N p
    have hall := h5 (cachingResolver_stable native (typeResolver m))
    refine ⟨ts, q, h1, h2, hall, ?_⟩
    intro t ht u hu
    rw [hall t ht, hall u hu]

/-- Witness for the amended C8: three uses of `PANGO_TYPE_LAYOUT_ITER` on a
build where `<pango/pango.h>` already defines it, with caching resolvers and a
fresh process. -/
theorem useTypeMacroN_calls_every_time_witness :
    (TypeIdent.PANGO_TYPE_LAYOUT_ITER ≠ .PANGO_TYPE_SCRIPT_ITER ∨
      PANGO_CHECK_VERSION examplePredefinedConfig 1 4 0 = true ∨
      TypeIdent.PANGO_TYPE_LAYOUT_ITER ∈ examplePredefinedConfig.predefined) ∧
    (∃ ts q, useTypeMacroN examplePredefinedConfig (cachingResolver exampleNative)
        .PANGO_TYPE_LAYOUT_ITER 3 freshProcess = some (ts, q) ∧ ts.length = 3 ∧
      q.invocations .pango_layout_iter_get_type = 0 + 3) ∧
    (∃ ts q, useTypeMacroN examplePredefinedConfig (cachingResolver exampleNative)
        .PANGO_TYPE_LAYOUT_ITER 3 freshProcess = some (ts, q) ∧ ts.length = 3 ∧
      (∀ t ∈ ts, t = 103) ∧ ∀ t ∈ ts, ∀ u ∈ ts, t = u) :=
  ⟨Or.inl (by decide),
   (useTypeMacroN_calls_every_time examplePredefinedConfig .PANGO_TYPE_LAYOUT_ITER 3
      (Or.inl (by decide))).1 _ (cachingResolver exampleNative) freshProcess,
   (useTypeMacroN_calls_every_time examplePredefinedConfig .PANGO_TYPE_LAYOUT_ITER 3
      (Or.inl (by decide))).2 exampleNative freshProcess⟩

/-- C9: wrapping a native attribute and unwrapping the result gives the
attribute back: `RVAL2ATTR(ATTR2RVAL(attr))` succeeds with `attr`. -/
theorem RVAL2ATTR_ATTR2RVAL (attr : PangoAttribute) :
    RVAL2ATTR (ATTR2RVAL attr) = .ok attr := by
  simp [RVAL2ATTR, ATTR2RVAL, pango_get_attribute, pango_make_attribute, wrap, unwrap]

end CSDTK42
